import Mathlib

/-!
Shallow embedding of `src/cst_python_api/farfield.py` (the farfield
post-processing helpers `_validate_common_inputs`, `get_gain_at_freq`,
`get_axial_ratio_at_freq`) together with theorems settling the spec claims
about them.

Modelling conventions:
* Python values passed to the helpers are modelled by `PyVal`.  Python's
  `bool` is a subclass of `int`, so `isinstance(b, int)` and
  `isinstance(b, (float, int))` both hold for booleans; the embedding
  mirrors this.
* Python floats are modelled by real numbers; `np.log10` is `Real.logb 10`
  and `10.0 ** x` is real exponentiation `(10:ℝ) ^ x`.
* Exceptions are modelled by `PyError` (exception class plus message) and
  fallible computations by `Except PyError _`.
* The external collaborator call `myCST.Results.getFarField(...)` is
  modelled by passing its outcome (`QueryOutcome`) as an argument: either
  a list of returned values, a COM-level failure carrying the
  `excepinfo[2]` diagnostic text, or any other exception carrying
  `str(err)`.
* In the source, `_validate_common_inputs` is declared `async def`, and
  both public helpers invoke it WITHOUT `await` (farfield.py lines 76 and
  164).  In Python this creates a coroutine object that is discarded
  unexecuted, so none of the validation checks actually run.  The
  embedding of the two public helpers is faithful to this: they do not
  consult the validator.  The validator's body is embedded separately as
  `validateCommonInputsBody` so that its (never-executed) checks can be
  reasoned about.
* Each helper's returned `CallOutcome` records the external request it
  issued (`request = some _` iff the collaborator was queried) alongside
  the result, so that "no external call occurs" is expressible.
-/

namespace CstPythonApi

/-- A Python value as far as the farfield helpers inspect one. -/
inductive PyVal where
  | none
  | bool (b : Bool)
  | int (n : ℤ)
  | float (x : ℝ)
  | str (s : String)

/-- `myCST is None` (farfield.py line 21). -/
def PyVal.isNone : PyVal → Bool
  | .none => true
  | _ => false

/-- `isinstance(v, (float, int))` (farfield.py line 23).  Python booleans
are instances of `int`, hence accepted. -/
def PyVal.isRealNumber : PyVal → Bool
  | .float _ => true
  | .int _ => true
  | .bool _ => true
  | _ => false

/-- `isinstance(v, int)` (farfield.py lines 25 and 29); booleans count. -/
def PyVal.isPyInt : PyVal → Bool
  | .int _ => true
  | .bool _ => true
  | _ => false

/-- Integer value of a Python int (booleans coerce to 0/1); only consulted
after an `isinstance(v, int)` guard succeeded. -/
def PyVal.toZ : PyVal → ℤ
  | .int n => n
  | .bool b => if b then 1 else 0
  | _ => 0

/-- `float(np.asarray(v).item())` (farfield.py lines 109-110 and 197-198):
succeeds on numeric scalars, raises on `None` and on non-numeric strings
(the embedding models strings as non-coercible, i.e. the non-numeric
case). -/
def PyVal.coerceFloat : PyVal → Option ℝ
  | .float x => some x
  | .int n => some (n : ℝ)
  | .bool b => some (if b then 1 else 0)
  | _ => Option.none

/-- Python exception classes raised in farfield.py. -/
inductive PyExcClass where
  | typeError
  | valueError
  | runtimeError
deriving DecidableEq

/-- A raised Python exception: its class and its message. -/
structure PyError where
  cls : PyExcClass
  msg : String
deriving DecidableEq

/-- Body of `_validate_common_inputs` (farfield.py lines 18-32).  In the
source this body never actually runs (the function is `async` and its
callers never `await` it); it is embedded so the checks it WOULD perform
can be stated. -/
def validateCommonInputsBody (myCST target_freq port mode : PyVal) :
    Except PyError Unit :=
  if myCST.isNone then
    .error ⟨.typeError, "ERROR: myCST object must be provided."⟩
  else if !target_freq.isRealNumber then
    .error ⟨.typeError, "ERROR: target_freq must be float or int."⟩
  else if !port.isPyInt then
    .error ⟨.typeError, "ERROR: port must be of type int."⟩
  else if port.toZ < 1 then
    .error ⟨.valueError, "ERROR: port must be an integer >= 1."⟩
  else if !mode.isPyInt then
    .error ⟨.typeError, "ERROR: mode must be of type int."⟩
  else if mode.toZ < 0 then
    .error ⟨.valueError, "ERROR: mode must be an integer >= 0."⟩
  else
    .ok ()

/-- The keyword arguments of one `myCST.Results.getFarField(...)` call
(farfield.py lines 82-94 and 170-182). -/
structure FarFieldRequest where
  freq : PyVal
  theta : List ℝ
  phi : List ℝ
  port : PyVal
  mode : PyVal
  plotMode : String
  coordSys : String
  polarization : String
  component : List String
  complexComp : List String
  linearScale : Bool

/-- Outcome of the awaited external `getFarField` call: a returned value
sequence, a `com_error` (carrying `excepinfo[2]` as diagnostic details), or
any other exception (carrying `str(err)`). -/
inductive QueryOutcome where
  | ok (results : List PyVal)
  | comErr (details : String)
  | exn (message : String)

/-- Whether the external call raised (either failure constructor). -/
def QueryOutcome.isFailure : QueryOutcome → Bool
  | .ok _ => false
  | .comErr _ => true
  | .exn _ => true

/-- The diagnostic text carried by a failing external call. -/
def QueryOutcome.diagnostic : QueryOutcome → String
  | .ok _ => ""
  | .comErr d => d
  | .exn m => m

/-- Observable outcome of one helper invocation: the external request it
issued, if any, and the returned value or raised exception. -/
structure CallOutcome where
  request : Option FarFieldRequest
  result : Except PyError ℝ

/-- The incomplete-result error (farfield.py lines 106 and 194). -/
def incompleteResultsError : PyError :=
  ⟨.runtimeError, "ERROR: Farfield results are empty or incomplete."⟩

/-- The gain-side parse/extraction error (farfield.py lines 112-113). -/
def gainParseError : PyError :=
  ⟨.runtimeError, "ERROR: Could not extract theta/phi values from CST farfield."⟩

/-- The axial-ratio-side parse/extraction error (farfield.py
lines 200-201). -/
def axialParseError : PyError :=
  ⟨.runtimeError, "ERROR: Could not extract circular components from CST farfield."⟩

/-- Gain reduction (farfield.py lines 116-118):
`10.0 * np.log10(10.0 ** (theta_component / 10.0) + 10.0 ** (phi_component / 10.0))`. -/
noncomputable def gainFromComponents (theta_component phi_component : ℝ) : ℝ :=
  10 * Real.logb 10 ((10 : ℝ) ^ (theta_component / 10) + (10 : ℝ) ^ (phi_component / 10))

/-- Axial-ratio reduction (farfield.py lines 204-208):
`emax, emin = (right, left) if right >= left else (left, right)`,
`numerator = emax + emin`, `denominator = max(emax - emin, 1e-300)`,
`ar_dB = 20.0 * np.log10(numerator / denominator)`. -/
noncomputable def axialRatioFromComponents (right left : ℝ) : ℝ :=
  let p := if right ≥ left then (right, left) else (left, right)
  let emax := p.1
  let emin := p.2
  let numerator := emax + emin
  let denominator := max (emax - emin) 1e-300
  let ar_linear := numerator / denominator
  20 * Real.logb 10 ar_linear

/-- `get_gain_at_freq` (farfield.py lines 35-120).  Line 76 calls the
`async` validator without `await`: the coroutine is created and discarded,
so none of its checks execute — the function proceeds straight to the
external query for any argument values. -/
noncomputable def get_gain_at_freq (myCST target_freq port mode : PyVal)
    (farfield : QueryOutcome) : CallOutcome :=
  let req : FarFieldRequest :=
    { freq := target_freq, theta := [0], phi := [0], port := port, mode := mode
      plotMode := "realized gain", coordSys := "spherical"
      polarization := "circular", component := ["theta", "phi"]
      complexComp := ["abs", "abs"], linearScale := false }
  match farfield with
  | .comErr details =>
      ⟨some req, .error ⟨.runtimeError,
        "ERROR: CST failed to retrieve farfield data. Details: " ++ details⟩⟩
  | .exn message =>
      ⟨some req, .error ⟨.runtimeError,
        "ERROR: Unexpected failure retrieving farfield results. " ++ message⟩⟩
  | .ok results =>
      match results with
      | r0 :: r1 :: _ =>
          match r0.coerceFloat, r1.coerceFloat with
          | some theta_component, some phi_component =>
              ⟨some req, .ok (gainFromComponents theta_component phi_component)⟩
          | _, _ => ⟨some req, .error gainParseError⟩
      | _ => ⟨some req, .error incompleteResultsError⟩

/-- `get_axial_ratio_at_freq` (farfield.py lines 123-210).  Line 164 calls
the `async` validator without `await`, so as in `get_gain_at_freq` the
checks never run. -/
noncomputable def get_axial_ratio_at_freq (myCST target_freq port mode : PyVal)
    (farfield : QueryOutcome) : CallOutcome :=
  let req : FarFieldRequest :=
    { freq := target_freq, theta := [0], phi := [0], port := port, mode := mode
      plotMode := "efield", coordSys := "spherical"
      polarization := "circular", component := ["right", "left"]
      complexComp := ["abs", "abs"], linearScale := true }
  match farfield with
  | .comErr details =>
      ⟨some req, .error ⟨.runtimeError,
        "ERROR: CST failed to retrieve farfield data. Details: " ++ details⟩⟩
  | .exn message =>
      ⟨some req, .error ⟨.runtimeError,
        "ERROR: Unexpected failure retrieving farfield results. " ++ message⟩⟩
  | .ok results =>
      match results with
      | r0 :: r1 :: _ =>
          match r0.coerceFloat, r1.coerceFloat with
          | some right, some left =>
              ⟨some req, .ok (axialRatioFromComponents right left)⟩
          | _, _ => ⟨some req, .error axialParseError⟩
      | _ => ⟨some req, .error incompleteResultsError⟩

/-- The max/min normal form of the axial-ratio reduction: the conditional
swap in the source is exactly "take the larger as `emax`, the smaller as
`emin`". -/
theorem axialRatioFromComponents_eq_maxmin (right left : ℝ) :
    axialRatioFromComponents right left =
      20 * Real.logb 10
        ((max right left + min right left) /
          max (max right left - min right left) 1e-300) := by
  unfold axialRatioFromComponents
  rcases le_total left right with h | h
  · rw [if_pos h]
    simp only [max_eq_left h, min_eq_right h]
  · by_cases heq : right ≥ left
    · rw [if_pos heq]
      have h' : left = right := le_antisymm heq h
      subst h'
      simp
    · rw [if_neg heq]
      simp only [max_eq_right h, min_eq_left h]

/-- C1: for every pair of decibel-scale components `g_theta`, `g_phi`
returned by the external realized-gain query, `get_gain_at_freq` returns
exactly `10 * log10(10^(g_theta/10) + 10^(g_phi/10))`. -/
theorem C1_gain_formula (myCST target_freq port mode : PyVal) (g_theta g_phi : ℝ) :
    (get_gain_at_freq myCST target_freq port mode
        (.ok [.float g_theta, .float g_phi])).result =
      .ok (10 * Real.logb 10
        ((10 : ℝ) ^ (g_theta / 10) + (10 : ℝ) ^ (g_phi / 10))) := rfl

/-- C2: for every pair of linear-scale magnitudes `right`, `left` returned
by the external electric-field query, `get_axial_ratio_at_freq` takes
`emax = max(right, left)`, `emin = min(right, left)` and returns exactly
`20 * log10((emax + emin) / max(emax - emin, 1e-300))`, where `1e-300` is
the fixed positive floor constant. -/
theorem C2_axial_ratio_formula (myCST target_freq port mode : PyVal) (right left : ℝ) :
    (get_axial_ratio_at_freq myCST target_freq port mode
        (.ok [.float right, .float left])).result =
      .ok (20 * Real.logb 10
        ((max right left + min right left) /
          max (max right left - min right left) 1e-300)) := by
  show Except.ok (axialRatioFromComponents right left) = _
  rw [axialRatioFromComponents_eq_maxmin]

/-- C9: the gain reduction is commutative in its two components: the gain
computed from `(g_theta, g_phi)` equals the gain computed from
`(g_phi, g_theta)`. -/
theorem C9_gain_commutative (myCST target_freq port mode : PyVal) (g_theta g_phi : ℝ) :
    (get_gain_at_freq myCST target_freq port mode
        (.ok [.float g_theta, .float g_phi])).result =
      (get_gain_at_freq myCST target_freq port mode
        (.ok [.float g_phi, .float g_theta])).result := by
  show Except.ok (gainFromComponents g_theta g_phi) =
    Except.ok (gainFromComponents g_phi g_theta)
  unfold gainFromComponents
  ring_nf

/-- C10: the axial-ratio reduction is symmetric under swapping its two
components, because it depends only on the max and min of the pair. -/
theorem C10_axial_ratio_symmetric (myCST target_freq port mode : PyVal) (right left : ℝ) :
    (get_axial_ratio_at_freq myCST target_freq port mode
        (.ok [.float right, .float left])).result =
      (get_axial_ratio_at_freq myCST target_freq port mode
        (.ok [.float left, .float right])).result := by
  show Except.ok (axialRatioFromComponents right left) =
    Except.ok (axialRatioFromComponents left right)
  rw [axialRatioFromComponents_eq_maxmin, axialRatioFromComponents_eq_maxmin,
    max_comm, min_comm]

/-- C3: the claim says a non-numeric `target_freq` fails with a TypeError
and no external query is issued.  The validator body would indeed reject a
string `target_freq` with that TypeError, but because `_validate_common_inputs`
is an `async` coroutine invoked without `await` (farfield.py lines 76 and
164), the checks never run: both helpers still issue the external query and
return a computed value. -/
theorem C3_bad_freq_not_rejected :
    validateCommonInputsBody (.str "proj") (.str "0.868") (.int 1) (.int 0) =
      .error ⟨.typeError, "ERROR: target_freq must be float or int."⟩
    ∧ (get_gain_at_freq (.str "proj") (.str "0.868") (.int 1) (.int 0)
        (.ok [.float 3, .float 3])).request.isSome = true
    ∧ (get_gain_at_freq (.str "proj") (.str "0.868") (.int 1) (.int 0)
        (.ok [.float 3, .float 3])).result = .ok (gainFromComponents 3 3)
    ∧ (get_axial_ratio_at_freq (.str "proj") (.str "0.868") (.int 1) (.int 0)
        (.ok [.float 1, .float 0])).request.isSome = true
    ∧ (get_axial_ratio_at_freq (.str "proj") (.str "0.868") (.int 1) (.int 0)
        (.ok [.float 1, .float 0])).result = .ok (axialRatioFromComponents 1 0) :=
  ⟨rfl, rfl, rfl, rfl, rfl⟩

/-- C4: the claim says an integer `port < 1` or `mode < 0` fails with a
ValueError before any external query.  The validator body would reject
`port = 0` and `mode = -1` with exactly those ValueErrors, but since the
`async` validator is never awaited the checks never run: the helper still
issues the external query and returns a computed value. -/
theorem C4_bad_port_mode_not_rejected :
    validateCommonInputsBody (.str "proj") (.float 0.868) (.int 0) (.int 0) =
      .error ⟨.valueError, "ERROR: port must be an integer >= 1."⟩
    ∧ validateCommonInputsBody (.str "proj") (.float 0.868) (.int 1) (.int (-1)) =
      .error ⟨.valueError, "ERROR: mode must be an integer >= 0."⟩
    ∧ (∀ p m : ℤ, 1 ≤ p → 0 ≤ m →
        validateCommonInputsBody (.str "proj") (.float 0.868) (.int p) (.int m) = .ok ())
    ∧ (get_gain_at_freq (.str "proj") (.float 0.868) (.int 0) (.int (-1))
        (.ok [.float 3, .float 3])).request.isSome = true
    ∧ (get_gain_at_freq (.str "proj") (.float 0.868) (.int 0) (.int (-1))
        (.ok [.float 3, .float 3])).result = .ok (gainFromComponents 3 3) := by
  refine ⟨rfl, rfl, ?_, rfl, rfl⟩
  intro p m hp hm
  unfold validateCommonInputsBody
  split_ifs with h1 h2 h3 h4 h5 h6 <;>
    simp_all [PyVal.isNone, PyVal.isRealNumber, PyVal.isPyInt, PyVal.toZ] <;>
    omega

/-- C5: whenever the external query yields fewer than two components
(including none at all), both helpers raise the RuntimeError-kind
incomplete-result error instead of crashing with an index error. -/
theorem C5_incomplete_results (myCST target_freq port mode : PyVal)
    (results : List PyVal) (h : results.length < 2) :
    (get_gain_at_freq myCST target_freq port mode (.ok results)).result =
      .error incompleteResultsError
    ∧ (get_axial_ratio_at_freq myCST target_freq port mode (.ok results)).result =
      .error incompleteResultsError
    ∧ incompleteResultsError.cls = .runtimeError := by
  match results with
  | [] => exact ⟨rfl, rfl, rfl⟩
  | [_] => exact ⟨rfl, rfl, rfl⟩
  | _ :: _ :: _ => simp at h; omega

/-- Witness for C5 at the empty response. -/
theorem C5_incomplete_results_witness :
    ([] : List PyVal).length < 2
    ∧ ((get_gain_at_freq .none .none .none .none (.ok [])).result =
        .error incompleteResultsError
      ∧ (get_axial_ratio_at_freq .none .none .none .none (.ok [])).result =
        .error incompleteResultsError
      ∧ incompleteResultsError.cls = .runtimeError) :=
  ⟨by decide, C5_incomplete_results .none .none .none .none [] (by decide)⟩

/-- C6: every failure of the external field query is re-raised by both
helpers as the same wrapped RuntimeError whose message ends with the
underlying diagnostic text (the `excepinfo` detail of a COM error, or
`str(err)` of any other exception). -/
theorem C6_collaborator_failure_wrapped (myCST target_freq port mode : PyVal)
    (q : QueryOutcome) (h : q.isFailure = true) :
    ∃ e : PyError,
      (get_gain_at_freq myCST target_freq port mode q).result = .error e
      ∧ (get_axial_ratio_at_freq myCST target_freq port mode q).result = .error e
      ∧ e.cls = .runtimeError
      ∧ ∃ pre, e.msg = pre ++ q.diagnostic := by
  cases q with
  | ok results => simp [QueryOutcome.isFailure] at h
  | comErr details =>
      exact ⟨_, rfl, rfl, rfl,
        "ERROR: CST failed to retrieve farfield data. Details: ", rfl⟩
  | exn message =>
      exact ⟨_, rfl, rfl, rfl,
        "ERROR: Unexpected failure retrieving farfield results. ", rfl⟩

/-- Witness for C6 at a concrete COM failure. -/
theorem C6_collaborator_failure_wrapped_witness :
    (QueryOutcome.comErr "monitor missing").isFailure = true
    ∧ ∃ e : PyError,
        (get_gain_at_freq .none .none .none .none
          (.comErr "monitor missing")).result = .error e
        ∧ (get_axial_ratio_at_freq .none .none .none .none
            (.comErr "monitor missing")).result = .error e
        ∧ e.cls = .runtimeError
        ∧ ∃ pre, e.msg = pre ++ (QueryOutcome.comErr "monitor missing").diagnostic :=
  ⟨rfl, C6_collaborator_failure_wrapped .none .none .none .none
    (.comErr "monitor missing") rfl⟩

/-- C7: whenever the external query returns enough components but the
first or the second one cannot be coerced to a real scalar, each helper
reports its parse/extraction error, which is a different error value from
the incomplete-result error, so the two failure modes are distinguishable
by the caller. -/
theorem C7_parse_error_distinct_from_incomplete
    (myCST target_freq port mode r0 r1 : PyVal) (rest : List PyVal)
    (h : r0.coerceFloat = Option.none ∨ r1.coerceFloat = Option.none) :
    (get_gain_at_freq myCST target_freq port mode
        (.ok (r0 :: r1 :: rest))).result = .error gainParseError
    ∧ (get_axial_ratio_at_freq myCST target_freq port mode
        (.ok (r0 :: r1 :: rest))).result = .error axialParseError
    ∧ gainParseError ≠ incompleteResultsError
    ∧ axialParseError ≠ incompleteResultsError := by
  refine ⟨?_, ?_, by decide, by decide⟩
  · unfold get_gain_at_freq
    rcases hr0 : r0.coerceFloat with _ | x
    · simp [hr0]
    · rcases hr1 : r1.coerceFloat with _ | y
      · simp [hr0, hr1]
      · rcases h with h | h
        · rw [hr0] at h
          exact Option.noConfusion h
        · rw [hr1] at h
          exact Option.noConfusion h
  · unfold get_axial_ratio_at_freq
    rcases hr0 : r0.coerceFloat with _ | x
    · simp [hr0]
    · rcases hr1 : r1.coerceFloat with _ | y
      · simp [hr0, hr1]
      · rcases h with h | h
        · rw [hr0] at h
          exact Option.noConfusion h
        · rw [hr1] at h
          exact Option.noConfusion h

/-- Witness for C7 at a mixed response whose second component is `None`. -/
theorem C7_parse_error_distinct_from_incomplete_witness :
    ((PyVal.float 3).coerceFloat = Option.none
      ∨ (PyVal.none).coerceFloat = Option.none)
    ∧ ((get_gain_at_freq .none .none .none .none
          (.ok [.float 3, .none])).result = .error gainParseError
      ∧ (get_axial_ratio_at_freq .none .none .none .none
          (.ok [.float 3, .none])).result = .error axialParseError
      ∧ gainParseError ≠ incompleteResultsError
      ∧ axialParseError ≠ incompleteResultsError) :=
  ⟨Or.inr rfl,
    C7_parse_error_distinct_from_incomplete .none .none .none .none
      (.float 3) .none [] (Or.inr rfl)⟩

/-- C8: on equal magnitudes `right = left = 1.0` (perfect circular
polarization) `get_axial_ratio_at_freq` raises no exception and returns a
very large positive (finite real) decibel value: the denominator is floored
to `1e-300`, so the result is `20 * log10(2e300)`, between 6000 and 6021 dB. -/
theorem C8_perfect_circular_polarization :
    ∃ v : ℝ,
      (get_axial_ratio_at_freq .none .none .none .none
        (.ok [.float 1, .float 1])).result = .ok v
      ∧ 6000 ≤ v ∧ v ≤ 6021 := by
  refine ⟨axialRatioFromComponents 1 1, rfl, ?_, ?_⟩ <;>
  · have h10 : (1 : ℝ) < 10 := by norm_num
    have hpow : (0 : ℝ) < (10 : ℝ) ^ (300 : ℕ) := by positivity
    have hval : axialRatioFromComponents 1 1 =
        20 * Real.logb 10 (2 * (10 : ℝ) ^ (300 : ℕ)) := by
      rw [axialRatioFromComponents_eq_maxmin, max_self, min_self]
      have h0 : (1 : ℝ) - 1 = 0 := by norm_num
      rw [h0, max_eq_right (by norm_num : (0 : ℝ) ≤ 1e-300)]
      have harg : (1 : ℝ) + 1 = 2 * (10 : ℝ) ^ (300 : ℕ) * 1e-300 := by
        norm_num
      rw [harg, mul_div_assoc,
        div_self (by norm_num : (1e-300 : ℝ) ≠ 0), mul_one]
    have hbase : Real.logb 10 ((10 : ℝ) ^ (300 : ℕ)) = 300 := by
      rw [Real.logb_pow]
      simp [Real.logb_self_eq_one h10]
    have hbase' : Real.logb 10 ((10 : ℝ) ^ (301 : ℕ)) = 301 := by
      rw [Real.logb_pow]
      simp [Real.logb_self_eq_one h10]
    have hlow : (300 : ℝ) ≤ Real.logb 10 (2 * (10 : ℝ) ^ (300 : ℕ)) := by
      rw [← hbase]
      exact Real.logb_le_logb_of_le h10 hpow
        (le_mul_of_one_le_left hpow.le one_le_two)
    have hhigh : Real.logb 10 (2 * (10 : ℝ) ^ (300 : ℕ)) ≤ 301 := by
      rw [← hbase']
      refine Real.logb_le_logb_of_le h10 (by positivity) ?_
      have : (10 : ℝ) ^ (301 : ℕ) = 10 * (10 : ℝ) ^ (300 : ℕ) := by ring
      rw [this]
      exact mul_le_mul_of_nonneg_right (by norm_num) hpow.le
    rw [hval]
    linarith

end CstPythonApi
